import Mathlib

/-!
Verification of the Kaa client logging module
(src/client/client-multi/client-c/src/kaa_logging.c).

The module batches log records into size-bounded buckets, encodes them into
a binary sync-message extension, and resolves server acknowledgments.  The
code of kaa_logging.c is transcribed below; the external collaborators it
calls (the log-storage facade, the platform writer utilities, the status
and strategy collaborators) are not part of the repository sources and are
modelled from the specification of their interface contracts.

Machine integers are modelled as Nat/Int with explicit reductions modulo
2^16 (uint16_t), 2^32 (uint32_t) and 2^64 (size_t / ssize_t on the usual
LP64 platforms) at the points where the C performs the conversions.
-/

namespace Kaa

/-- Error codes of kaa_error.h used by kaa_logging.c.  KAA_ERR_OTHER stands
for any further storage-facade failure code ("other-failure" in the spec's
facade contract). -/
inductive kaa_error where
  | KAA_ERR_NONE
  | KAA_ERR_BADPARAM
  | KAA_ERR_NOT_INITIALIZED
  | KAA_ERR_BADDATA
  | KAA_ERR_NOMEM
  | KAA_ERR_WRITE_FAILED
  | KAA_ERR_BAD_STATE
  | KAA_ERR_NOT_FOUND
  | KAA_ERR_INSUFFICIENT_BUFFER
  | KAA_ERR_OTHER (code : Nat)
deriving DecidableEq, Repr

open kaa_error

/-- Strategy verdicts of the upload-strategy collaborator (spec section 2:
NO_ACTION, UPLOAD, CLEANUP). -/
inductive StrategyVerdict where
  | NO_ACTION
  | UPLOAD
  | CLEANUP
deriving DecidableEq, Repr

/-- Observable calls the engine makes into its collaborators.  Every call
into the storage facade is recorded; strategyDecide and syncTrigger record
the strategy and channel-manager calls of update_storage. -/
inductive Effect where
  | allocBuffer (size : Nat)
  | deallocBuffer
  | addRecord (size : Nat)
  | writeNextRecord
  | removeByBucketId (id : Nat)
  | unmarkByBucketId (id : Nat)
  | shrinkToSize (vol : Nat)
  | strategyDecide
  | syncTrigger
deriving DecidableEq, Repr

/-- KAA_MAX_PADDING_LENGTH (kaa_logging.c line 36). -/
def KAA_MAX_PADDING_LENGTH : Nat := 3

/-- KAA_LOGGING_RECEIVE_UPDATES_FLAG (kaa_logging.c line 35). -/
def KAA_LOGGING_RECEIVE_UPDATES_FLAG : Nat := 0x01

/-- Modelled from the spec: the extension header is the type tag, the flags
byte, two reserved bytes and the 4-byte backpatched payload length; the code
(line 215) places the length field at offset 4, so the header is 8 bytes.
The constant itself lives in kaa_platform_common.h, outside src/. -/
def KAA_EXTENSION_HEADER_SIZE : Nat := 8

/-- Modelled from the spec: the numeric tag of the logging extension type
(kaa_platform_common.h, outside src/); its value is irrelevant to the
properties proved here. -/
def KAA_LOGGING_EXTENSION_TYPE : Nat := 7

/-- Conversion of a C signed value to size_t (unsigned, 64-bit), as happens
when an ssize_t operand meets a size_t operand in arithmetic or comparison. -/
def size_t_of (i : Int) : Nat := (i % (2 ^ 64 : Int)).toNat

/-- kaa_aligned_size_get (kaa_platform_utils.h, outside src/).  Modelled
from the spec: a record's framed payload is rounded up to the next 4-byte
boundary. -/
def kaa_aligned_size_get (n : Nat) : Nat := n + (4 - n % 4) % 4

/-- The log-storage facade state.  Modelled from the spec (section 6):
`pending` are the buffered records not yet assigned to a bucket, in
extraction order; `marked` are the records tagged with a bucket id.
`alloc_error` and `add_error` model the facade's fallible buffer-allocation
and registration entry points (none = the call succeeds). -/
structure log_storage where
  pending : List (List Nat)
  marked : List (Nat × List Nat)
  alloc_error : Option kaa_error
  add_error : Option kaa_error
deriving DecidableEq, Repr

/-- Modelled from the spec: report pending record count. -/
def ext_log_storage_get_records_count (st : log_storage) : Nat :=
  st.pending.length

/-- Modelled from the spec: report total occupied bytes of the pending
records. -/
def ext_log_storage_get_total_size (st : log_storage) : Nat :=
  (st.pending.map List.length).sum

/-- Modelled from the spec: extract-and-tag the next eligible record into a
caller buffer under a size limit; outcomes are success, no-more-records
(KAA_ERR_NOT_FOUND) and buffer-too-small (KAA_ERR_INSUFFICIENT_BUFFER).
Returns (error, record length, record bytes, new storage state). -/
def ext_log_storage_write_next_record (st : log_storage) (buffer_size : Nat)
    (bucket_id : Nat) : kaa_error × Nat × List Nat × log_storage :=
  match st.pending with
  | [] => (KAA_ERR_NOT_FOUND, 0, [], st)
  | r :: rest =>
    if buffer_size < r.length then
      (KAA_ERR_INSUFFICIENT_BUFFER, 0, [], st)
    else
      (KAA_ERR_NONE, r.length, r,
        { st with pending := rest, marked := st.marked ++ [(bucket_id, r)] })

/-- Modelled from the spec: permanently delete all records tagged with the
given bucket id. -/
def ext_log_storage_remove_by_bucket_id (st : log_storage) (id : Nat) :
    log_storage :=
  { st with marked := st.marked.filter (fun p => p.1 ≠ id) }

/-- Modelled from the spec: untag all records tagged with the given bucket
id, returning them to the pending pool. -/
def ext_log_storage_unmark_by_bucket_id (st : log_storage) (id : Nat) :
    log_storage :=
  { st with
    pending := st.pending ++ (st.marked.filter (fun p => p.1 = id)).map Prod.snd,
    marked := st.marked.filter (fun p => p.1 ≠ id) }

/-- Modelled from the spec: shrink total occupancy to at most the given
volume.  The eviction order is storage-internal; oldest-first eviction of
pending records is taken as the model. -/
def shrink_pending : List (List Nat) → Nat → List (List Nat)
  | [], _ => []
  | r :: rest, vol =>
    if ((r :: rest).map List.length).sum ≤ vol then r :: rest
    else shrink_pending rest vol

/-- Modelled from the spec: shrink total occupancy to at most `vol` bytes. -/
def ext_log_storage_shrink_to_size (st : log_storage) (vol : Nat) :
    log_storage :=
  { st with pending := shrink_pending st.pending vol }

/-- kaa_log_upload_properties_t: maximum storage volume and maximum bucket
size in bytes. -/
structure kaa_log_upload_properties where
  max_log_storage_volume : Nat
  max_log_bucket_size : Nat
deriving DecidableEq, Repr

/-- struct kaa_log_collector (kaa_logging.c lines 51-59).  `log_bucket_id`
is the uint16_t bucket counter.  `log_storage` and `log_upload_strategy`
are none until kaa_logging_init configures them (the calloc in
kaa_log_collector_create zeroes the pointers).  `status` models the
persisted bucket-id seed held by the status collaborator: none means
kaa_status_get_log_bucket_id fails.  `has_sync_handler` models whether the
channel manager currently has a sync handler registered for logging. -/
structure kaa_log_collector where
  log_bucket_id : Nat
  log_storage : Option log_storage
  log_upload_strategy : Option (Kaa.log_storage → StrategyVerdict)
  log_properties : kaa_log_upload_properties
  status : Option Nat
  has_sync_handler : Bool

/-- kaa_log_collector_create (lines 67-83): calloc zeroes the structure, so
the bucket counter is 0 and storage/strategy are unconfigured. -/
def kaa_log_collector_create (status : Option Nat) (has_sync_handler : Bool) :
    kaa_log_collector :=
  { log_bucket_id := 0
    log_storage := none
    log_upload_strategy := none
    log_properties := ⟨0, 0⟩
    status := status
    has_sync_handler := has_sync_handler }

/-- kaa_logging_init (lines 97-115): installs storage, strategy and
properties; the bucket counter is untouched. -/
def kaa_logging_init (c : kaa_log_collector) (storage : log_storage)
    (strategy : log_storage → StrategyVerdict)
    (properties : kaa_log_upload_properties) : kaa_error × kaa_log_collector :=
  (KAA_ERR_NONE,
    { c with
      log_storage := some storage
      log_upload_strategy := some strategy
      log_properties := properties })

/-- update_storage (lines 119-142): ask the strategy for a verdict; CLEANUP
shrinks the storage to the configured maximum volume (failures swallowed),
UPLOAD invokes the sync handler when one is registered, NO_ACTION does
nothing.  When the collaborators are unconfigured the C dereferences null
pointers (undefined behavior); that corner is modelled as a bare strategy
evaluation with no further action. -/
def update_storage (c : kaa_log_collector) : kaa_log_collector × List Effect :=
  match c.log_storage, c.log_upload_strategy with
  | some st, some strat =>
    match strat st with
    | StrategyVerdict.CLEANUP =>
      let st2 := ext_log_storage_shrink_to_size st c.log_properties.max_log_storage_volume
      ({ c with log_storage := some st2 },
        [Effect.strategyDecide,
          Effect.shrinkToSize c.log_properties.max_log_storage_volume])
    | StrategyVerdict.UPLOAD =>
      (c, if c.has_sync_handler
          then [Effect.strategyDecide, Effect.syncTrigger]
          else [Effect.strategyDecide])
    | StrategyVerdict.NO_ACTION => (c, [Effect.strategyDecide])
  | _, _ => (c, [Effect.strategyDecide])

/-- kaa_logging_add_record (lines 146-181).  The record entry is modelled
by its serialized byte string (entry->get_size is its length).  `avro_ok`
models whether the avro_writer_memory allocation succeeds.  Returns the
error, the new collector state and the storage calls performed;
allocBuffer is recorded when the facade allocation succeeds. -/
def kaa_logging_add_record (c : kaa_log_collector) (entry : List Nat)
    (avro_ok : Bool) : kaa_error × kaa_log_collector × List Effect :=
  match c.log_storage with
  | none => (KAA_ERR_NOT_INITIALIZED, c, [])
  | some st =>
    if entry.length = 0 then (KAA_ERR_BADDATA, c, [])
    else
      match st.alloc_error with
      | some e => (e, c, [])
      | none =>
        if !avro_ok then
          (KAA_ERR_NOMEM, c, [Effect.allocBuffer entry.length, Effect.deallocBuffer])
        else
          match st.add_error with
          | some e =>
            (e, c, [Effect.allocBuffer entry.length, Effect.deallocBuffer])
          | none =>
            let st' := { st with pending := st.pending ++ [entry] }
            let c' := { c with log_storage := some st' }
            let (c'', effs) := update_storage c'
            (KAA_ERR_NONE, c'',
              Effect.allocBuffer entry.length :: Effect.addRecord entry.length :: effs)

/-- kaa_logging_request_get_size (lines 185-202). -/
def kaa_logging_request_get_size (c : kaa_log_collector) : kaa_error × Nat :=
  match c.log_storage with
  | none => (KAA_ERR_NOT_INITIALIZED, 0)
  | some st =>
    let records_count := ext_log_storage_get_records_count st
    let total_size := ext_log_storage_get_total_size st
    let actual_size :=
      records_count * 4 + records_count * KAA_MAX_PADDING_LENGTH + total_size
    (KAA_ERR_NONE,
      KAA_EXTENSION_HEADER_SIZE + 4 +
        (if actual_size < c.log_properties.max_log_bucket_size then actual_size
         else c.log_properties.max_log_bucket_size))

/-- kaa_platform_message_writer_t: the output buffer as a byte assignment
indexed from writer->begin, the cursor offset (current - begin) and the
capacity (end - begin).  The C performs raw stores with no bounds check
except where noted, so writes past endPos are representable. -/
structure kaa_platform_message_writer where
  buf : Nat → Nat
  pos : Nat
  endPos : Nat

/-- Store one byte. -/
def setByte (buf : Nat → Nat) (p v : Nat) : Nat → Nat :=
  Function.update buf p (v % 256)

/-- Store a byte string starting at position p. -/
def setBytes : (Nat → Nat) → Nat → List Nat → (Nat → Nat)
  | buf, _, [] => buf
  | buf, p, b :: rest => setBytes (setByte buf p b) (p + 1) rest

/-- KAA_HTONS store: 16-bit big-endian. -/
def writeU16BE (buf : Nat → Nat) (p v : Nat) : Nat → Nat :=
  setBytes buf p [v / 256 % 256, v % 256]

/-- KAA_HTONL store: 32-bit big-endian. -/
def writeU32BE (buf : Nat → Nat) (p v : Nat) : Nat → Nat :=
  setBytes buf p
    [v / 2 ^ 24 % 256, v / 2 ^ 16 % 256, v / 256 % 256, v % 256]

/-- KAA_NTOHS load: 16-bit big-endian. -/
def readU16BE (buf : Nat → Nat) (p : Nat) : Nat :=
  buf p * 256 + buf (p + 1)

/-- KAA_NTOHL load: 32-bit big-endian. -/
def readU32BE (buf : Nat → Nat) (p : Nat) : Nat :=
  buf p * 2 ^ 24 + buf (p + 1) * 2 ^ 16 + buf (p + 2) * 256 + buf (p + 3)

/-- Modelled from the spec: kaa_platform_message_write_alignment pads the
cursor with zero bytes to the next 4-byte boundary. -/
def kaa_platform_message_write_alignment (w : kaa_platform_message_writer) :
    kaa_platform_message_writer :=
  let pad := (4 - w.pos % 4) % 4
  { w with buf := setBytes w.buf w.pos (List.replicate pad 0), pos := w.pos + pad }

/-- Modelled from the spec: kaa_platform_message_write_extension_header
writes the 8-byte extension header (type tag, flags, two reserved bytes,
4-byte big-endian payload size) and fails with a write error when the
buffer cannot hold it. -/
def kaa_platform_message_write_extension_header (w : kaa_platform_message_writer)
    (ty flags size : Nat) : kaa_error × kaa_platform_message_writer :=
  if w.pos + KAA_EXTENSION_HEADER_SIZE ≤ w.endPos then
    (KAA_ERR_NONE,
      { w with
        buf := setBytes w.buf w.pos
          [ty % 256, flags % 256, 0, 0,
            size / 2 ^ 24 % 256, size / 2 ^ 16 % 256, size / 256 % 256, size % 256]
        pos := w.pos + KAA_EXTENSION_HEADER_SIZE })
  else (KAA_ERR_WRITE_FAILED, w)

/-- Lines 222-224 of kaa_logging_request_serialize: the bucket id the call
will use.  A zero counter is first seeded from the status collaborator
(kaa_status_get_log_bucket_id; none = failure, mapping to KAA_ERR_BAD_STATE),
then the counter is incremented as a uint16_t. -/
def next_bucket_id (c : kaa_log_collector) : Option Nat :=
  if c.log_bucket_id = 0 then c.status.map (fun s => (s + 1) % 2 ^ 16)
  else some ((c.log_bucket_id + 1) % 2 ^ 16)

/-- Result of the extraction loop of kaa_logging_request_serialize:
either the loop completes (benign extraction outcome after at least one
record) with the final storage, writer and count, or the call must return
the given error, with the storage as mutated so far. -/
inductive loop_out where
  | ok (st : log_storage) (w : kaa_platform_message_writer)
      (records_count : Nat) (effs : List Effect)
  | fail (e : kaa_error) (st : log_storage) (effs : List Effect)

/-- The while loop of kaa_logging_request_serialize (lines 238-263).
`remaining` is the ssize_t remaining_size; the storage is asked to write
the next record under the limit (size_t)(remaining_size - 4), which wraps
to a huge unsigned value when remaining_size < 4, exactly as the C does.
On success the 4-byte big-endian length prefix and the payload are stored,
the cursor is aligned, and remaining_size is decreased by the aligned
framed size.  The benign outcomes KAA_ERR_NOT_FOUND and
KAA_ERR_INSUFFICIENT_BUFFER end the loop, as an error when no record has
been packed yet.  `fuel` only bounds the recursion; the caller passes
pending-count + 1, which the loop can never exhaust since every iteration
that continues consumes a pending record. -/
def serialize_loop : Nat → log_storage → kaa_platform_message_writer → Int →
    Nat → Nat → List Effect → loop_out
  | 0, st, _, _, _, _, effs => loop_out.fail (KAA_ERR_OTHER 0) st effs
  | fuel + 1, st, w, remaining, bucket_id, records_count, effs =>
    match ext_log_storage_write_next_record st (size_t_of (remaining - 4)) bucket_id with
    | (KAA_ERR_NONE, record_len, rec, st') =>
      let w1 : kaa_platform_message_writer :=
        { w with
          buf := setBytes (writeU32BE w.buf w.pos record_len) (w.pos + 4) rec
          pos := w.pos + 4 + record_len }
      let w2 := kaa_platform_message_write_alignment w1
      serialize_loop fuel st' w2
        (remaining - ((kaa_aligned_size_get record_len : Int) + 4))
        bucket_id ((records_count + 1) % 2 ^ 16)
        (effs ++ [Effect.writeNextRecord])
    | (KAA_ERR_NOT_FOUND, _, _, st') =>
      if records_count = 0 then
        loop_out.fail KAA_ERR_NOT_FOUND st' (effs ++ [Effect.writeNextRecord])
      else loop_out.ok st' w records_count (effs ++ [Effect.writeNextRecord])
    | (KAA_ERR_INSUFFICIENT_BUFFER, _, _, st') =>
      if records_count = 0 then
        loop_out.fail KAA_ERR_INSUFFICIENT_BUFFER st' (effs ++ [Effect.writeNextRecord])
      else loop_out.ok st' w records_count (effs ++ [Effect.writeNextRecord])
    | (e, _, _, st') => loop_out.fail e st' (effs ++ [Effect.writeNextRecord])

/-- Result of kaa_logging_request_serialize: the returned error, the
collector state after the call, the writer (updated only on success, as
the C copies tmp_writer back into *writer only at the end), the number of
records packed (the records_count local) and the storage calls made. -/
structure serialize_result where
  err : kaa_error
  collector : kaa_log_collector
  writer : kaa_platform_message_writer
  packed : Nat
  effects : List Effect

/-- The ssize_t remaining_size of line 231: the smaller of the configured
maximum bucket size and the space left for records.  The C comparison
converts the (possibly negative) pointer difference end - current to
size_t, as unsigned/signed operands of the same rank are compared
unsigned; `recStart` is the cursor offset where records begin. -/
def remaining_budget (max_bucket endPos recStart : Nat) : Int :=
  if max_bucket < size_t_of ((endPos : Int) - (recStart : Int)) then
    (max_bucket : Int)
  else (endPos : Int) - (recStart : Int)

/-- The tmp_writer of lines 226-229 after the 16-bit big-endian bucket id
has been stored and the 16-bit record-count slot skipped. -/
def serialize_tmp3 (tmp1 : kaa_platform_message_writer) (bid : Nat) :
    kaa_platform_message_writer :=
  { tmp1 with buf := writeU16BE tmp1.buf tmp1.pos bid, pos := tmp1.pos + 2 + 2 }

/-- Lines 265-270: backpatch the 32-bit extension size at offset
w.pos + 4 (extension_size_p) and the 16-bit record count at
records_count_p into the loop-final writer w'. -/
def backpatch (w w' : kaa_platform_message_writer) (records_count_p cnt : Nat) : kaa_platform_message_writer :=
  { w' with buf := writeU16BE (writeU32BE w'.buf (w.pos + 4) (w'.pos - w.pos - KAA_EXTENSION_HEADER_SIZE)) records_count_p cnt }

/-- Lines 226-272 of kaa_logging_request_serialize, after the extension
header has been written into tmp1 and the bucket id has been obtained:
store the 16-bit bucket id, skip the 16-bit count slot, compute the
ssize_t remaining budget, run the extraction loop, then backpatch the
32-bit extension size and the 16-bit record count.  On a loop error the
original writer is returned (the C never copies tmp_writer back), but the
incremented bucket counter and the storage mutations are kept. -/
def serialize_extract (c : kaa_log_collector) (st : log_storage)
    (w tmp1 : kaa_platform_message_writer) (bid : Nat) : serialize_result :=
  match serialize_loop (st.pending.length + 1) st (serialize_tmp3 tmp1 bid)
      (remaining_budget c.log_properties.max_log_bucket_size tmp1.endPos (tmp1.pos + 2 + 2))
      bid 0 [] with
  | loop_out.fail e stF effs =>
    ⟨e, { c with log_bucket_id := bid, log_storage := some stF }, w, 0, effs⟩
  | loop_out.ok st' w' cnt effs =>
    ⟨KAA_ERR_NONE, { c with log_bucket_id := bid, log_storage := some st' },
      backpatch w w' (tmp1.pos + 2) cnt, cnt, effs⟩

/-- kaa_logging_request_serialize (lines 206-273). -/
def kaa_logging_request_serialize (c : kaa_log_collector)
    (w : kaa_platform_message_writer) : serialize_result :=
  match c.log_storage with
  | none => ⟨KAA_ERR_NOT_INITIALIZED, c, w, 0, []⟩
  | some st =>
    match kaa_platform_message_write_extension_header w
        KAA_LOGGING_EXTENSION_TYPE KAA_LOGGING_RECEIVE_UPDATES_FLAG 0 with
    | (KAA_ERR_NONE, tmp1) =>
      match next_bucket_id c with
      | none => ⟨KAA_ERR_BAD_STATE, c, w, 0, []⟩
      | some bid => serialize_extract c st w tmp1 bid
    | (_, _) => ⟨KAA_ERR_WRITE_FAILED, c, w, 0, []⟩

/-- kaa_logging_handle_server_sync (lines 277-306).  `payload` is the byte
string at reader->current; `extension_length` is the reported extension
length.  With at least 4 bytes, the 16-bit big-endian bucket id is read at
bytes 0-1 and the result code at byte 2 (the reader skips 2 + 2 bytes); a
zero result removes the records tagged with the id, a nonzero result
unmarks them, and update_storage runs afterwards.  There is no
initialization check: with no storage configured the C invokes the facade
on a null pointer; that call is modelled as leaving the absent storage
absent while still recording the facade call. -/
def kaa_logging_handle_server_sync (c : kaa_log_collector) (payload : List Nat)
    (extension_length : Nat) : kaa_error × kaa_log_collector × List Effect :=
  if 4 ≤ extension_length then
    let id := payload.getD 0 0 * 256 + payload.getD 1 0
    let result := payload.getD 2 0
    let step : kaa_log_collector × List Effect :=
      if result = 0 then
        (match c.log_storage with
          | some st =>
            { c with log_storage := some (ext_log_storage_remove_by_bucket_id st id) }
          | none => c,
          [Effect.removeByBucketId id])
      else
        (match c.log_storage with
          | some st =>
            { c with log_storage := some (ext_log_storage_unmark_by_bucket_id st id) }
          | none => c,
          [Effect.unmarkByBucketId id])
    let (c2, effs2) := update_storage step.1
    (KAA_ERR_NONE, c2, step.2 ++ effs2)
  else (KAA_ERR_NONE, c, [])


/-- A strategy that never requests anything (used for concrete runs). -/
def strategy_noop : log_storage → StrategyVerdict := fun _ => StrategyVerdict.NO_ACTION

/-- Concrete storage with pending records of 6 and 20 bytes. -/
def overrun_storage : log_storage :=
  ⟨[[1, 2, 3, 4, 5, 6], [7, 7, 7, 7, 7, 7, 7, 7, 7, 7, 7, 7, 7, 7, 7, 7, 7, 7, 7, 7]], [], none, none⟩

/-- Collector whose maximum bucket size is 10 bytes. -/
def overrun_collector : kaa_log_collector :=
  { log_bucket_id := 1, log_storage := some overrun_storage,
    log_upload_strategy := some strategy_noop,
    log_properties := ⟨1000, 10⟩, status := some 0, has_sync_handler := false }

/-- A writer over a 100-byte buffer, cursor at the start. -/
def overrun_writer : kaa_platform_message_writer := ⟨fun _ => 0, 0, 100⟩

/-- Concrete storage with one pending 4-byte record. -/
def trace_storage : log_storage := ⟨[[1, 2, 3, 4]], [], none, none⟩

/-- An uninitialized-counter collector whose persisted seed is 5. -/
def trace_collector0 : kaa_log_collector :=
  { log_bucket_id := 0, log_storage := some trace_storage,
    log_upload_strategy := some strategy_noop,
    log_properties := ⟨1000, 100⟩, status := some 5, has_sync_handler := false }

/-- A writer over a 100-byte buffer, cursor at the start. -/
def trace_writer : kaa_platform_message_writer := ⟨fun _ => 0, 0, 100⟩

/-- First serialize call of the C3 trace. -/
def trace_call1 : serialize_result :=
  kaa_logging_request_serialize trace_collector0 trace_writer

/-- Second serialize call of the C3 trace (storage now empty). -/
def trace_call2 : serialize_result :=
  kaa_logging_request_serialize trace_call1.collector trace_writer

/-- Third serialize call of the C3 trace, after a record is added again. -/
def trace_call3 : serialize_result :=
  kaa_logging_request_serialize
    (kaa_logging_add_record trace_call2.collector [9, 9, 9, 9] true).2.1 trace_writer

/-- Storage with no records at all. -/
def empty_storage : log_storage := ⟨[], [], none, none⟩

/-- Initialized collector with empty storage and a seeded counter. -/
def empty_collector : kaa_log_collector :=
  { log_bucket_id := 6, log_storage := some empty_storage,
    log_upload_strategy := some strategy_noop,
    log_properties := ⟨1000, 100⟩, status := some 5, has_sync_handler := false }

/-- Storage with two pending 4-byte records. -/
def two_record_storage : log_storage := ⟨[[1, 1, 1, 1], [2, 2, 2, 2]], [], none, none⟩

/-- Collector whose 13-byte bucket budget fits exactly one framed record. -/
def two_record_collector : kaa_log_collector :=
  { log_bucket_id := 0, log_storage := some two_record_storage,
    log_upload_strategy := some strategy_noop,
    log_properties := ⟨1000, 13⟩, status := some 5, has_sync_handler := false }

/-- Storage with one pending record and two delivered buckets in flight. -/
def ack_storage : log_storage := ⟨[[1]], [(3, [2, 2]), (4, [5])], none, none⟩

/-- Initialized collector used for acknowledgment runs. -/
def ack_collector : kaa_log_collector :=
  { log_bucket_id := 9, log_storage := some ack_storage,
    log_upload_strategy := some strategy_noop,
    log_properties := ⟨1000, 100⟩, status := some 5, has_sync_handler := false }

/-- Storage whose registration entry point always fails. -/
def failing_storage : log_storage := ⟨[], [], none, some (KAA_ERR_OTHER 3)⟩

/-- Collector over the failing storage. -/
def failing_collector : kaa_log_collector :=
  { log_bucket_id := 0, log_storage := some failing_storage,
    log_upload_strategy := some strategy_noop,
    log_properties := ⟨1000, 100⟩, status := some 0, has_sync_handler := false }

/-- Bytes stored before position p are unaffected by a store at p. -/
theorem setBytes_lt_apply (l : List Nat) (buf : Nat → Nat) (p q : Nat) (h : q < p) :
    setBytes buf p l q = buf q := by
  induction l generalizing buf p with
  | nil => rfl
  | cons b rest ih =>
    rw [setBytes, ih _ _ (Nat.lt_succ_of_lt h), setByte,
      Function.update_noteq (Nat.ne_of_lt h)]

/-- Big-endian 16-bit round trip. -/
theorem readU16BE_writeU16BE (buf : Nat → Nat) (p v : Nat) :
    readU16BE (writeU16BE buf p v) p = v % 2 ^ 16 := by
  simp only [readU16BE, writeU16BE, setBytes, setByte,
    Function.update_same, Function.update_noteq (by omega : p ≠ p + 1)]
  omega

/-- Big-endian 32-bit round trip. -/
theorem readU32BE_writeU32BE (buf : Nat → Nat) (p v : Nat) :
    readU32BE (writeU32BE buf p v) p = v % 2 ^ 32 := by
  simp only [readU32BE, writeU32BE, setBytes, setByte,
    Function.update_same,
    Function.update_noteq (by omega : p ≠ p + 1),
    Function.update_noteq (by omega : p ≠ p + 1 + 1),
    Function.update_noteq (by omega : p ≠ p + 1 + 1 + 1),
    Function.update_noteq (by omega : p + 1 ≠ p + 1 + 1),
    Function.update_noteq (by omega : p + 1 ≠ p + 1 + 1 + 1),
    Function.update_noteq (by omega : p + 2 ≠ p + 1 + 1 + 1)]
  norm_num
  omega

/-- A 16-bit store strictly above a 32-bit field leaves that field alone. -/
theorem readU32BE_writeU16BE_of_lt (buf : Nat → Nat) (p q v : Nat) (h : p + 3 < q) :
    readU32BE (writeU16BE buf q v) p = readU32BE buf p := by
  simp only [readU32BE, writeU16BE]
  rw [setBytes_lt_apply _ _ _ _ (by omega), setBytes_lt_apply _ _ _ _ (by omega),
    setBytes_lt_apply _ _ _ _ (by omega), setBytes_lt_apply _ _ _ _ (by omega)]

/-- The extraction loop completes (loop_out.ok) only with a nonzero record
count, and the uint16_t count stays below 2^16. -/
theorem serialize_loop_ok_count (fuel : Nat) :
    ∀ (st : log_storage) (w : kaa_platform_message_writer) (remaining : Int)
      (bid cnt : Nat) (effs : List Effect) (st' : log_storage)
      (w' : kaa_platform_message_writer) (cnt' : Nat) (effs' : List Effect),
      cnt < 2 ^ 16 →
      serialize_loop fuel st w remaining bid cnt effs = loop_out.ok st' w' cnt' effs' →
      0 < cnt' ∧ cnt' < 2 ^ 16 := by
  induction fuel with
  | zero => intro st w remaining bid cnt effs st' w' cnt' effs' hcnt h
            simp [serialize_loop] at h
  | succ fuel ih =>
    intro st w remaining bid cnt effs st' w' cnt' effs' hcnt h
    rcases hp : st.pending with _ | ⟨r, rest⟩
    · simp only [serialize_loop, ext_log_storage_write_next_record, hp] at h
      split at h
      · cases h
      · rename_i hc
        injection h with h1 h2 h3 h4
        exact ⟨h3 ▸ Nat.pos_of_ne_zero hc, h3 ▸ hcnt⟩
    · by_cases hfit : size_t_of (remaining - 4) < r.length
      · simp only [serialize_loop, ext_log_storage_write_next_record, hp,
          if_pos hfit] at h
        split at h
        · cases h
        · rename_i hc
          injection h with h1 h2 h3 h4
          exact ⟨h3 ▸ Nat.pos_of_ne_zero hc, h3 ▸ hcnt⟩
      · simp only [serialize_loop, ext_log_storage_write_next_record, hp,
          if_neg hfit] at h
        exact ih _ _ _ _ _ _ _ _ _ _ (Nat.mod_lt _ (by norm_num)) h

/-- The extraction loop never fails with KAA_ERR_NONE. -/
theorem serialize_loop_fail_ne_none (fuel : Nat) :
    ∀ (st : log_storage) (w : kaa_platform_message_writer) (remaining : Int)
      (bid cnt : Nat) (effs : List Effect) (e : kaa_error) (st' : log_storage)
      (effs' : List Effect),
      serialize_loop fuel st w remaining bid cnt effs = loop_out.fail e st' effs' →
      e ≠ KAA_ERR_NONE := by
  induction fuel with
  | zero =>
    intro st w remaining bid cnt effs e st' effs' h
    simp only [serialize_loop] at h
    injection h with h1 h2 h3
    exact h1 ▸ (by simp)
  | succ fuel ih =>
    intro st w remaining bid cnt effs e st' effs' h
    rcases hp : st.pending with _ | ⟨r, rest⟩
    · simp only [serialize_loop, ext_log_storage_write_next_record, hp] at h
      split at h
      · injection h with h1 h2 h3
        exact h1 ▸ (by simp)
      · cases h
    · by_cases hfit : size_t_of (remaining - 4) < r.length
      · simp only [serialize_loop, ext_log_storage_write_next_record, hp,
          if_pos hfit] at h
        split at h
        · injection h with h1 h2 h3
          exact h1 ▸ (by simp)
        · cases h
      · simp only [serialize_loop, ext_log_storage_write_next_record, hp,
          if_neg hfit] at h
        exact ih _ _ _ _ _ _ _ _ _ h

/-- Shape of every successful kaa_logging_request_serialize call: storage
was configured, a bucket id was obtained, the header fit, at least one
record was packed (count below 2^16), the collector carries the new id and
the loop-final storage, and the returned writer ends with the two
backpatched fields. -/
theorem serialize_success_spec (c : kaa_log_collector)
    (w : kaa_platform_message_writer)
    (hok : (kaa_logging_request_serialize c w).err = KAA_ERR_NONE) :
    ∃ st bid st' w' cnt effs,
      c.log_storage = some st ∧
      next_bucket_id c = some bid ∧
      w.pos + KAA_EXTENSION_HEADER_SIZE ≤ w.endPos ∧
      0 < cnt ∧ cnt < 2 ^ 16 ∧
      kaa_logging_request_serialize c w =
        ⟨KAA_ERR_NONE, { c with log_bucket_id := bid, log_storage := some st' },
          backpatch w w' (w.pos + KAA_EXTENSION_HEADER_SIZE + 2) cnt, cnt, effs⟩ := by
  cases hst : c.log_storage with
  | none => simp [kaa_logging_request_serialize, hst] at hok
  | some st =>
    by_cases hfit : w.pos + KAA_EXTENSION_HEADER_SIZE ≤ w.endPos
    · cases hnb : next_bucket_id c with
      | none =>
        simp [kaa_logging_request_serialize, hst, hnb,
          kaa_platform_message_write_extension_header, if_pos hfit] at hok
      | some bid =>
        have hser : kaa_logging_request_serialize c w =
            serialize_extract c st w { w with buf := setBytes w.buf w.pos [KAA_LOGGING_EXTENSION_TYPE % 256, KAA_LOGGING_RECEIVE_UPDATES_FLAG % 256, 0, 0, 0, 0, 0, 0], pos := w.pos + KAA_EXTENSION_HEADER_SIZE } bid := by
          simp [kaa_logging_request_serialize, hst, hnb,
            kaa_platform_message_write_extension_header, if_pos hfit]
        rw [hser] at hok ⊢
        unfold serialize_extract at hok ⊢
        split at hok
        · rename_i e stF effs heq
          simp only [serialize_result.err] at hok
          exact absurd hok (serialize_loop_fail_ne_none _ _ _ _ _ _ _ _ _ _ heq)
        · rename_i st' w' cnt effs heq
          obtain ⟨h1, h2⟩ := serialize_loop_ok_count _ _ _ _ _ _ _ _ _ _ _ (by norm_num) heq
          exact ⟨st, bid, st', w', cnt, effs, rfl, rfl, hfit, h1, h2, rfl⟩
    · simp [kaa_logging_request_serialize, hst,
        kaa_platform_message_write_extension_header, if_neg hfit] at hok

/-- C1: if the very first extraction attempt fails with no-more-records or
buffer-too-small, kaa_logging_request_serialize returns that error; the
call never returns success having packed zero records, so an empty bucket
is never sent. -/
theorem serialize_never_packs_zero_records (c : kaa_log_collector)
    (w : kaa_platform_message_writer) (st : log_storage) (bid : Nat)
    (hst : c.log_storage = some st) :
    ((kaa_logging_request_serialize c w).err = KAA_ERR_NONE →
      1 ≤ (kaa_logging_request_serialize c w).packed) ∧
    (w.pos + KAA_EXTENSION_HEADER_SIZE ≤ w.endPos →
      next_bucket_id c = some bid →
      ∀ e len rec st2,
        (e = KAA_ERR_NOT_FOUND ∨ e = KAA_ERR_INSUFFICIENT_BUFFER) →
        ext_log_storage_write_next_record st
          (size_t_of (remaining_budget c.log_properties.max_log_bucket_size
            w.endPos (w.pos + KAA_EXTENSION_HEADER_SIZE + 2 + 2) - 4)) bid
          = (e, len, rec, st2) →
        (kaa_logging_request_serialize c w).err = e) := by
  constructor
  · intro hok
    obtain ⟨st2, bid2, st', w', cnt, effs, hst2, hnb2, hfit2, h1, h2, heq⟩ :=
      serialize_success_spec c w hok
    rw [heq]
    exact h1
  · intro hfit hnb e len rec st2 hbenign hw
    have hser : kaa_logging_request_serialize c w =
        serialize_extract c st w { w with buf := setBytes w.buf w.pos [KAA_LOGGING_EXTENSION_TYPE % 256, KAA_LOGGING_RECEIVE_UPDATES_FLAG % 256, 0, 0, 0, 0, 0, 0], pos := w.pos + KAA_EXTENSION_HEADER_SIZE } bid := by
      simp [kaa_logging_request_serialize, hst, hnb,
        kaa_platform_message_write_extension_header, if_pos hfit]
    rw [hser]
    unfold serialize_extract
    simp only [serialize_loop]
    rw [hw]
    rcases hbenign with hb | hb <;> subst hb <;> simp

/-- C5: after a successful serialize call, decoding the backpatched header
fields of the produced extension yields the number of records packed (the
16-bit big-endian count at offset start+10) and the total payload byte
length (the 32-bit big-endian length at offset start+4, equal to the bytes
written after the extension header: 2-byte bucket id, 2-byte count and all
framed records). -/
theorem serialize_header_roundtrip (c : kaa_log_collector)
    (w : kaa_platform_message_writer)
    (hok : (kaa_logging_request_serialize c w).err = KAA_ERR_NONE)
    (hT : (kaa_logging_request_serialize c w).writer.pos - w.pos -
      KAA_EXTENSION_HEADER_SIZE < 2 ^ 32) :
    readU16BE (kaa_logging_request_serialize c w).writer.buf
        (w.pos + KAA_EXTENSION_HEADER_SIZE + 2)
      = (kaa_logging_request_serialize c w).packed ∧
    readU32BE (kaa_logging_request_serialize c w).writer.buf (w.pos + 4)
      = (kaa_logging_request_serialize c w).writer.pos - w.pos -
        KAA_EXTENSION_HEADER_SIZE := by
  obtain ⟨st, bid, st', w', cnt, effs, hst, hnb, hfit, h1, h2, heq⟩ :=
    serialize_success_spec c w hok
  rw [heq] at hT ⊢
  simp only [backpatch] at hT ⊢
  constructor
  · rw [readU16BE_writeU16BE]
    exact Nat.mod_eq_of_lt h2
  · rw [readU32BE_writeU16BE_of_lt _ _ _ _ (by simp [KAA_EXTENSION_HEADER_SIZE]),
      readU32BE_writeU32BE]
    exact Nat.mod_eq_of_lt hT

/-- A successful serialize call leaves in the counter exactly the id that
next_bucket_id computed for it. -/
theorem serialize_success_id (c : kaa_log_collector)
    (w : kaa_platform_message_writer)
    (hok : (kaa_logging_request_serialize c w).err = KAA_ERR_NONE) :
    next_bucket_id c =
      some ((kaa_logging_request_serialize c w).collector.log_bucket_id) := by
  obtain ⟨st, bid, st', w', cnt, effs, hst, hnb, hfit, h1, h2, heq⟩ :=
    serialize_success_spec c w hok
  rw [heq, hnb]

/-- C3 (amended): the first successful serialize call uses the persisted
seed plus one (mod 2^16); and whenever a serialize call succeeds and is
immediately followed by another successful call, with a nonzero counter in
between, the second call's bucket id is the first one's plus one
(mod 2^16).  Failed calls that reached id assignment also consume ids, so
successful calls separated by such failures may skip values. -/
theorem bucket_ids_increment_amended :
    (∀ (c : kaa_log_collector) (w : kaa_platform_message_writer)
      (st : log_storage) (s : Nat),
      c.log_storage = some st → c.log_bucket_id = 0 → c.status = some s →
      (kaa_logging_request_serialize c w).err = KAA_ERR_NONE →
      (kaa_logging_request_serialize c w).collector.log_bucket_id
        = (s + 1) % 2 ^ 16) ∧
    (∀ (c : kaa_log_collector) (w1 w2 : kaa_platform_message_writer),
      (kaa_logging_request_serialize c w1).err = KAA_ERR_NONE →
      (kaa_logging_request_serialize c w1).collector.log_bucket_id ≠ 0 →
      (kaa_logging_request_serialize
        (kaa_logging_request_serialize c w1).collector w2).err = KAA_ERR_NONE →
      (kaa_logging_request_serialize
          (kaa_logging_request_serialize c w1).collector w2).collector.log_bucket_id
        = ((kaa_logging_request_serialize c w1).collector.log_bucket_id + 1)
            % 2 ^ 16) := by
  constructor
  · intro c w st s hst h0 hs hok
    have h := serialize_success_id c w hok
    rw [next_bucket_id, if_pos h0, hs] at h
    simpa using h.symm
  · intro c w1 w2 hok1 hne hok2
    have h := serialize_success_id _ w2 hok2
    rw [next_bucket_id, if_neg hne] at h
    simpa using h.symm

/-- update_storage never touches the bucket counter. -/
theorem update_storage_bucket_id (c : kaa_log_collector) :
    (update_storage c).1.log_bucket_id = c.log_bucket_id := by
  unfold update_storage
  split
  · split <;> rfl
  · rfl

/-- kaa_logging_add_record never touches the bucket counter. -/
theorem add_record_bucket_id (c : kaa_log_collector) (entry : List Nat)
    (avro_ok : Bool) :
    (kaa_logging_add_record c entry avro_ok).2.1.log_bucket_id
      = c.log_bucket_id := by
  unfold kaa_logging_add_record
  split
  · rfl
  · split
    · rfl
    · split
      · rfl
      · split
        · rfl
        · split
          · rfl
          · rw [update_storage_bucket_id]

/-- kaa_logging_handle_server_sync never touches the bucket counter. -/
theorem handle_server_sync_bucket_id (c : kaa_log_collector)
    (payload : List Nat) (len : Nat) :
    (kaa_logging_handle_server_sync c payload len).2.1.log_bucket_id
      = c.log_bucket_id := by
  unfold kaa_logging_handle_server_sync
  split
  · rw [update_storage_bucket_id]
    split
    · split <;> rfl
    · split <;> rfl
  · rfl

/-- C10: a serialize call that gets past the extension header and the id
seeding advances the bucket counter to exactly the computed next id, and
keeps it there even when the call then fails; no other public operation
(add_record, server-sync handling, re-initialization) modifies the
counter (kaa_logging_request_get_size does not write the collector at
all). -/
theorem bucket_id_frame_conditions :
    (∀ (c : kaa_log_collector) (w : kaa_platform_message_writer)
      (st : log_storage) (bid : Nat),
      c.log_storage = some st →
      w.pos + KAA_EXTENSION_HEADER_SIZE ≤ w.endPos →
      next_bucket_id c = some bid →
      (kaa_logging_request_serialize c w).collector.log_bucket_id = bid) ∧
    (∀ (c : kaa_log_collector) (entry : List Nat) (avro_ok : Bool),
      (kaa_logging_add_record c entry avro_ok).2.1.log_bucket_id
        = c.log_bucket_id) ∧
    (∀ (c : kaa_log_collector) (payload : List Nat) (len : Nat),
      (kaa_logging_handle_server_sync c payload len).2.1.log_bucket_id
        = c.log_bucket_id) ∧
    (∀ (c : kaa_log_collector) (st : log_storage)
      (strat : log_storage → StrategyVerdict) (props : kaa_log_upload_properties),
      (kaa_logging_init c st strat props).2.log_bucket_id = c.log_bucket_id) := by
  refine ⟨?_, add_record_bucket_id, handle_server_sync_bucket_id, fun _ _ _ _ => rfl⟩
  intro c w st bid hst hfit hnb
  have hser : kaa_logging_request_serialize c w =
      serialize_extract c st w { w with buf := setBytes w.buf w.pos [KAA_LOGGING_EXTENSION_TYPE % 256, KAA_LOGGING_RECEIVE_UPDATES_FLAG % 256, 0, 0, 0, 0, 0, 0], pos := w.pos + KAA_EXTENSION_HEADER_SIZE } bid := by
    simp [kaa_logging_request_serialize, hst, hnb,
      kaa_platform_message_write_extension_header, if_pos hfit]
  rw [hser]
  unfold serialize_extract
  split <;> rfl

/-- C9: for an initialized collector the request-size estimate is the
fixed extension-header cost plus the 4-byte id/count field plus the
smaller of (pending records * 4 length-prefix bytes + pending records * 3
maximum padding bytes + total pending payload bytes) and the configured
maximum bucket size; with empty storage it is the header-only cost. -/
theorem request_get_size_formula (c : kaa_log_collector) (st : log_storage)
    (hst : c.log_storage = some st) :
    kaa_logging_request_get_size c =
      (KAA_ERR_NONE, KAA_EXTENSION_HEADER_SIZE + 4 +
        min (st.pending.length * 4 + st.pending.length * KAA_MAX_PADDING_LENGTH +
          (st.pending.map List.length).sum) c.log_properties.max_log_bucket_size) ∧
    (st.pending = [] →
      (kaa_logging_request_get_size c).2 = KAA_EXTENSION_HEADER_SIZE + 4) := by
  have hmain : kaa_logging_request_get_size c =
      (KAA_ERR_NONE, KAA_EXTENSION_HEADER_SIZE + 4 +
        min (st.pending.length * 4 + st.pending.length * KAA_MAX_PADDING_LENGTH +
          (st.pending.map List.length).sum) c.log_properties.max_log_bucket_size) := by
    simp only [kaa_logging_request_get_size, hst,
      ext_log_storage_get_records_count, ext_log_storage_get_total_size]
    congr 1
    split <;> omega
  refine ⟨hmain, fun hp => ?_⟩
  rw [hmain]
  simp [hp]

/-- C7: a record whose serialized size is zero is rejected with
KAA_ERR_BADDATA before any storage call is made; the collector is
unchanged. -/
theorem add_record_zero_size_baddata (c : kaa_log_collector)
    (st : log_storage) (entry : List Nat) (avro_ok : Bool)
    (hst : c.log_storage = some st) (hz : entry.length = 0) :
    kaa_logging_add_record c entry avro_ok = (KAA_ERR_BADDATA, c, []) := by
  simp [kaa_logging_add_record, hst, hz]

/-- C8: when buffer allocation, serialization hand-off (avro writer
allocation) or storage registration fails inside add_record, the call
returns exactly that failure, the collector (hence the stored record set)
is unchanged, and every buffer successfully allocated during the call was
released before returning: the storage calls of a failing run are either
none at all or exactly an allocation followed by its release. -/
theorem add_record_failure_propagation (c : kaa_log_collector)
    (st : log_storage) (entry : List Nat) (avro_ok : Bool)
    (hst : c.log_storage = some st) (hnz : entry.length ≠ 0) :
    ((kaa_logging_add_record c entry avro_ok).1 ≠ KAA_ERR_NONE →
      (kaa_logging_add_record c entry avro_ok).2.1 = c ∧
      ((kaa_logging_add_record c entry avro_ok).2.2 = [] ∨
        (kaa_logging_add_record c entry avro_ok).2.2 =
          [Effect.allocBuffer entry.length, Effect.deallocBuffer])) ∧
    (∀ e, st.alloc_error = some e →
      (kaa_logging_add_record c entry avro_ok).1 = e) ∧
    (st.alloc_error = none → avro_ok = false →
      (kaa_logging_add_record c entry avro_ok).1 = KAA_ERR_NOMEM) ∧
    (∀ e, st.alloc_error = none → avro_ok = true → st.add_error = some e →
      (kaa_logging_add_record c entry avro_ok).1 = e) := by
  rcases hae : st.alloc_error with _ | e1
  · cases havro : avro_ok with
    | false =>
      have hr : kaa_logging_add_record c entry false =
          (KAA_ERR_NOMEM, c, [Effect.allocBuffer entry.length, Effect.deallocBuffer]) := by
        simp [kaa_logging_add_record, hst, hnz, hae]
      rw [hr]
      refine ⟨fun _ => ⟨rfl, Or.inr rfl⟩, ?_, fun _ _ => rfl, ?_⟩
      · intro e he
        simp at he
      · intro e _ hv
        simp at hv
    | true =>
      rcases hadd : st.add_error with _ | e2
      · have hr1 : (kaa_logging_add_record c entry true).1 = KAA_ERR_NONE := by
          simp [kaa_logging_add_record, hst, hnz, hae, hadd]
        refine ⟨fun hne => absurd hr1 hne, ?_, ?_, ?_⟩
        · intro e he
          simp at he
        · intro _ hv
          simp at hv
        · intro e _ _ he
          simp at he
      · have hr : kaa_logging_add_record c entry true =
            (e2, c, [Effect.allocBuffer entry.length, Effect.deallocBuffer]) := by
          simp [kaa_logging_add_record, hst, hnz, hae, hadd]
        rw [hr]
        refine ⟨fun _ => ⟨rfl, Or.inr rfl⟩, ?_, ?_, ?_⟩
        · intro e he
          simp at he
        · intro _ hv
          simp at hv
        · intro e _ _ he
          exact Option.some.inj he
  · have hr : kaa_logging_add_record c entry avro_ok = (e1, c, []) := by
      simp [kaa_logging_add_record, hst, hnz, hae]
    rw [hr]
    refine ⟨fun _ => ⟨rfl, Or.inl rfl⟩, ?_, ?_, ?_⟩
    · intro e he
      exact Option.some.inj he
    · intro hv
      simp at hv
    · intro e hv
      simp at hv

/-- C6 counterexample: with storage unconfigured (fresh collector), a
server-sync acknowledgment is not rejected with KAA_ERR_NOT_INITIALIZED;
kaa_logging_handle_server_sync performs no initialization check and
returns KAA_ERR_NONE. -/
theorem handle_server_sync_uninitialized_counterexample :
    (kaa_log_collector_create (some 0) false).log_storage = none ∧
    (kaa_logging_handle_server_sync (kaa_log_collector_create (some 0) false) [] 0).1
      = KAA_ERR_NONE ∧
    KAA_ERR_NONE ≠ KAA_ERR_NOT_INITIALIZED := by
  refine ⟨rfl, rfl, by decide⟩

/-- C6 (amended): before storage is configured, add_record, request-size
estimation and serialize fail with KAA_ERR_NOT_INITIALIZED and perform no
storage operation; kaa_logging_handle_server_sync, however, has no such
guard and returns KAA_ERR_NONE. -/
theorem not_initialized_guard_amended (c : kaa_log_collector)
    (hst : c.log_storage = none) :
    (∀ (entry : List Nat) (avro_ok : Bool),
      kaa_logging_add_record c entry avro_ok = (KAA_ERR_NOT_INITIALIZED, c, [])) ∧
    (kaa_logging_request_get_size c).1 = KAA_ERR_NOT_INITIALIZED ∧
    (∀ w, kaa_logging_request_serialize c w =
      ⟨KAA_ERR_NOT_INITIALIZED, c, w, 0, []⟩) ∧
    (∀ (payload : List Nat) (len : Nat),
      (kaa_logging_handle_server_sync c payload len).1 = KAA_ERR_NONE) := by
  refine ⟨fun entry avro_ok => by simp [kaa_logging_add_record, hst],
    by simp [kaa_logging_request_get_size, hst],
    fun w => by simp [kaa_logging_request_serialize, hst],
    fun payload len => ?_⟩
  unfold kaa_logging_handle_server_sync
  split
  · rfl
  · rfl

/-- update_storage leaves the collector unchanged and begins its effects
with the strategy evaluation whenever the strategy never answers CLEANUP. -/
theorem update_storage_no_cleanup (c : kaa_log_collector)
    (hnc : ∀ s f, c.log_upload_strategy = some f → f s ≠ StrategyVerdict.CLEANUP) :
    (update_storage c).1 = c ∧
    ∃ rest, (update_storage c).2 = Effect.strategyDecide :: rest := by
  unfold update_storage
  rcases hso : c.log_storage with _ | st
  · exact ⟨by simp, [], by simp⟩
  · rcases hstrat : c.log_upload_strategy with _ | f
    · exact ⟨by simp, [], by simp⟩
    · rcases hv : f st with _ | _ | _
      · exact ⟨by simp [hv], [], by simp [hv]⟩
      · refine ⟨by simp [hv], ?_⟩
        cases c.has_sync_handler
        · exact ⟨[], by simp [hv]⟩
        · exact ⟨[Effect.syncTrigger], by simp [hv]⟩
      · exact absurd hv (by simpa using hnc st f hstrat)

/-- C4: a server acknowledgment shorter than 4 bytes is silently ignored
(no error, no storage call, state unchanged); otherwise the bucket id is
the 16-bit big-endian value at bytes 0-1 and the result code is byte 2: a
zero result removes all records tagged with that id, a nonzero result
returns them to the pending pool, and the strategy is re-evaluated after
either branch.  The strategy hypothesis excludes CLEANUP verdicts, whose
eviction choice is internal to the storage collaborator. -/
theorem handle_server_sync_ack_spec (c : kaa_log_collector) (st : log_storage)
    (payload : List Nat) (len : Nat)
    (hst : c.log_storage = some st)
    (hnc : ∀ s f, c.log_upload_strategy = some f → f s ≠ StrategyVerdict.CLEANUP) :
    (len < 4 → kaa_logging_handle_server_sync c payload len = (KAA_ERR_NONE, c, [])) ∧
    (4 ≤ len →
      (kaa_logging_handle_server_sync c payload len).1 = KAA_ERR_NONE ∧
      (payload.getD 2 0 = 0 →
        (∃ rest, (kaa_logging_handle_server_sync c payload len).2.2 =
          Effect.removeByBucketId (payload.getD 0 0 * 256 + payload.getD 1 0) ::
            Effect.strategyDecide :: rest) ∧
        ∃ st2, (kaa_logging_handle_server_sync c payload len).2.1.log_storage = some st2 ∧
          st2.pending = st.pending ∧
          st2.marked = st.marked.filter
            (fun p => p.1 ≠ payload.getD 0 0 * 256 + payload.getD 1 0)) ∧
      (payload.getD 2 0 ≠ 0 →
        (∃ rest, (kaa_logging_handle_server_sync c payload len).2.2 =
          Effect.unmarkByBucketId (payload.getD 0 0 * 256 + payload.getD 1 0) ::
            Effect.strategyDecide :: rest) ∧
        ∃ st2, (kaa_logging_handle_server_sync c payload len).2.1.log_storage = some st2 ∧
          st2.pending = st.pending ++
            (st.marked.filter
              (fun p => p.1 = payload.getD 0 0 * 256 + payload.getD 1 0)).map Prod.snd ∧
          st2.marked = st.marked.filter
            (fun p => p.1 ≠ payload.getD 0 0 * 256 + payload.getD 1 0))) := by
  constructor
  · intro hlt
    unfold kaa_logging_handle_server_sync
    rw [if_neg (by omega)]
  · intro hge
    by_cases hres : payload.getD 2 0 = 0
    · have hr : kaa_logging_handle_server_sync c payload len =
          (KAA_ERR_NONE,
            (update_storage { c with log_storage := some (ext_log_storage_remove_by_bucket_id st (payload.getD 0 0 * 256 + payload.getD 1 0)) }).1,
            Effect.removeByBucketId (payload.getD 0 0 * 256 + payload.getD 1 0) ::
              (update_storage { c with log_storage := some (ext_log_storage_remove_by_bucket_id st (payload.getD 0 0 * 256 + payload.getD 1 0)) }).2) := by
        simp only [kaa_logging_handle_server_sync, hst, if_pos hge, if_pos hres, List.singleton_append]
      obtain ⟨hu1, rest, hu2⟩ := update_storage_no_cleanup
        { c with log_storage := some (ext_log_storage_remove_by_bucket_id st (payload.getD 0 0 * 256 + payload.getD 1 0)) }
        (fun s f hf => hnc s f hf)
      rw [hr]
      refine ⟨rfl, fun _ => ⟨⟨rest, by rw [hu2]⟩, ?_⟩, fun hne => absurd hres hne⟩
      refine ⟨ext_log_storage_remove_by_bucket_id st (payload.getD 0 0 * 256 + payload.getD 1 0), ?_, rfl, rfl⟩
      rw [hu1]
    · have hr : kaa_logging_handle_server_sync c payload len =
          (KAA_ERR_NONE,
            (update_storage { c with log_storage := some (ext_log_storage_unmark_by_bucket_id st (payload.getD 0 0 * 256 + payload.getD 1 0)) }).1,
            Effect.unmarkByBucketId (payload.getD 0 0 * 256 + payload.getD 1 0) ::
              (update_storage { c with log_storage := some (ext_log_storage_unmark_by_bucket_id st (payload.getD 0 0 * 256 + payload.getD 1 0)) }).2) := by
        simp only [kaa_logging_handle_server_sync, hst, if_pos hge, if_neg hres, List.singleton_append]
      obtain ⟨hu1, rest, hu2⟩ := update_storage_no_cleanup
        { c with log_storage := some (ext_log_storage_unmark_by_bucket_id st (payload.getD 0 0 * 256 + payload.getD 1 0)) }
        (fun s f hf => hnc s f hf)
      rw [hr]
      refine ⟨rfl, fun hz => absurd hz hres, fun _ => ⟨⟨rest, by rw [hu2]⟩, ?_⟩⟩
      refine ⟨ext_log_storage_unmark_by_bucket_id st (payload.getD 0 0 * 256 + payload.getD 1 0), ?_, rfl, rfl⟩
      rw [hu1]

/-- C2 (bug evidence): with byte budget B = 10 (max_log_bucket_size = 10,
ample buffer space) and pending records of 6 and 20 bytes, serialize
succeeds and writes 36 bytes of framed records.  The 6-byte record with
its 4-byte prefix and 2 padding bytes already makes 12 > 10; remaining_size
is then -2, and (size_t)(remaining_size - 4) wraps to 2^64 - 6, so the
20-byte record is accepted as well. -/
theorem serialize_exceeds_budget_on_concrete_input :
    (kaa_logging_request_serialize overrun_collector overrun_writer).err = KAA_ERR_NONE ∧
    (kaa_logging_request_serialize overrun_collector overrun_writer).packed = 2 ∧
    remaining_budget overrun_collector.log_properties.max_log_bucket_size
      overrun_writer.endPos (overrun_writer.pos + KAA_EXTENSION_HEADER_SIZE + 2 + 2) = 10 ∧
    (kaa_logging_request_serialize overrun_collector overrun_writer).writer.pos -
      (overrun_writer.pos + KAA_EXTENSION_HEADER_SIZE + 2 + 2) = 36 ∧
    ¬ ((36 : Nat) ≤ 10) := by
  refine ⟨by decide, by decide, by decide, by decide, by decide⟩

/-- C3 counterexample: call 1 succeeds with id 6 (seed 5 plus one); call 2
fails with KAA_ERR_NOT_FOUND on the emptied storage but still consumes
id 7; after a record is added, call 3 succeeds with id 8.  Calls 1 and 3
are successive successful calls, yet 8 ≠ 6 + 1: bucket ids of successive
successful calls are not always the previous id plus one. -/
theorem bucket_ids_not_consecutive_counterexample :
    trace_call1.err = KAA_ERR_NONE ∧ trace_call1.collector.log_bucket_id = 6 ∧
    trace_call2.err = KAA_ERR_NOT_FOUND ∧ trace_call2.collector.log_bucket_id = 7 ∧
    trace_call3.err = KAA_ERR_NONE ∧ trace_call3.collector.log_bucket_id = 8 ∧
    ¬ ((8 : Nat) = (6 + 1) % 2 ^ 16) := by
  refine ⟨by decide, by decide, by decide, by decide, by decide, by decide, by decide⟩

theorem serialize_never_packs_zero_records_witness :
    (kaa_logging_request_serialize empty_collector trace_writer).err = KAA_ERR_NOT_FOUND :=
  (serialize_never_packs_zero_records empty_collector trace_writer empty_storage 7 rfl).2
    (by decide) (by decide) KAA_ERR_NOT_FOUND 0 [] empty_storage (Or.inl rfl) (by decide)

theorem serialize_header_roundtrip_witness :
    readU16BE (kaa_logging_request_serialize trace_collector0 trace_writer).writer.buf
        (trace_writer.pos + KAA_EXTENSION_HEADER_SIZE + 2)
      = (kaa_logging_request_serialize trace_collector0 trace_writer).packed ∧
    readU32BE (kaa_logging_request_serialize trace_collector0 trace_writer).writer.buf
        (trace_writer.pos + 4)
      = (kaa_logging_request_serialize trace_collector0 trace_writer).writer.pos -
        trace_writer.pos - KAA_EXTENSION_HEADER_SIZE :=
  serialize_header_roundtrip trace_collector0 trace_writer (by decide) (by decide)

theorem bucket_ids_increment_amended_witness :
    (kaa_logging_request_serialize two_record_collector trace_writer).collector.log_bucket_id
      = (5 + 1) % 2 ^ 16 ∧
    (kaa_logging_request_serialize
        (kaa_logging_request_serialize two_record_collector trace_writer).collector
        trace_writer).collector.log_bucket_id
      = ((kaa_logging_request_serialize two_record_collector trace_writer).collector.log_bucket_id + 1)
          % 2 ^ 16 :=
  ⟨bucket_ids_increment_amended.1 two_record_collector trace_writer two_record_storage 5
      rfl rfl rfl (by decide),
    bucket_ids_increment_amended.2 two_record_collector trace_writer trace_writer
      (by decide) (by decide) (by decide)⟩

theorem handle_server_sync_ack_spec_witness :
    (kaa_logging_handle_server_sync ack_collector [0, 3, 0, 0] 4).1 = KAA_ERR_NONE ∧
    (∃ rest, (kaa_logging_handle_server_sync ack_collector [0, 3, 0, 0] 4).2.2 =
      Effect.removeByBucketId 3 :: Effect.strategyDecide :: rest) ∧
    kaa_logging_handle_server_sync ack_collector [] 0 = (KAA_ERR_NONE, ack_collector, []) :=
  ⟨((handle_server_sync_ack_spec ack_collector ack_storage [0, 3, 0, 0] 4 rfl
      (fun s f hf => by injection hf with h; subst h; simp [strategy_noop])).2 (by decide)).1,
    (((handle_server_sync_ack_spec ack_collector ack_storage [0, 3, 0, 0] 4 rfl
      (fun s f hf => by injection hf with h; subst h; simp [strategy_noop])).2 (by decide)).2.1
        (by decide)).1,
    (handle_server_sync_ack_spec ack_collector ack_storage [] 0 rfl
      (fun s f hf => by injection hf with h; subst h; simp [strategy_noop])).1 (by decide)⟩

theorem not_initialized_guard_amended_witness :
    kaa_logging_add_record (kaa_log_collector_create (some 0) false) [1] true =
      (KAA_ERR_NOT_INITIALIZED, kaa_log_collector_create (some 0) false, []) ∧
    (kaa_logging_request_get_size (kaa_log_collector_create (some 0) false)).1
      = KAA_ERR_NOT_INITIALIZED ∧
    (kaa_logging_handle_server_sync (kaa_log_collector_create (some 0) false)
        [0, 1, 0, 0] 4).1 = KAA_ERR_NONE :=
  ⟨(not_initialized_guard_amended (kaa_log_collector_create (some 0) false) rfl).1 [1] true,
    (not_initialized_guard_amended (kaa_log_collector_create (some 0) false) rfl).2.1,
    (not_initialized_guard_amended (kaa_log_collector_create (some 0) false) rfl).2.2.2
      [0, 1, 0, 0] 4⟩

theorem add_record_zero_size_baddata_witness :
    kaa_logging_add_record ack_collector [] true = (KAA_ERR_BADDATA, ack_collector, []) :=
  add_record_zero_size_baddata ack_collector ack_storage [] true rfl rfl

theorem add_record_failure_propagation_witness :
    (kaa_logging_add_record failing_collector [1, 2] true).1 = KAA_ERR_OTHER 3 ∧
    (kaa_logging_add_record failing_collector [1, 2] true).2.1 = failing_collector ∧
    ((kaa_logging_add_record failing_collector [1, 2] true).2.2 = [] ∨
      (kaa_logging_add_record failing_collector [1, 2] true).2.2 =
        [Effect.allocBuffer 2, Effect.deallocBuffer]) :=
  ⟨(add_record_failure_propagation failing_collector failing_storage [1, 2] true rfl
      (by decide)).2.2.2 (KAA_ERR_OTHER 3) rfl rfl rfl,
    ((add_record_failure_propagation failing_collector failing_storage [1, 2] true rfl
      (by decide)).1 (by decide)).1,
    ((add_record_failure_propagation failing_collector failing_storage [1, 2] true rfl
      (by decide)).1 (by decide)).2⟩

theorem request_get_size_formula_witness :
    kaa_logging_request_get_size ack_collector = (KAA_ERR_NONE, 12 + min 8 100) ∧
    (kaa_logging_request_get_size empty_collector).2 = KAA_EXTENSION_HEADER_SIZE + 4 :=
  ⟨(request_get_size_formula ack_collector ack_storage rfl).1,
    (request_get_size_formula empty_collector empty_storage rfl).2 rfl⟩

theorem bucket_id_frame_conditions_witness :
    (kaa_logging_request_serialize empty_collector trace_writer).collector.log_bucket_id = 7 ∧
    (kaa_logging_add_record ack_collector [1] true).2.1.log_bucket_id
      = ack_collector.log_bucket_id ∧
    (kaa_logging_handle_server_sync ack_collector [0, 3, 0, 0] 4).2.1.log_bucket_id
      = ack_collector.log_bucket_id :=
  ⟨bucket_id_frame_conditions.1 empty_collector trace_writer empty_storage 7 rfl
      (by decide) (by decide),
    bucket_id_frame_conditions.2.1 ack_collector [1] true,
    bucket_id_frame_conditions.2.2.1 ack_collector [0, 3, 0, 0] 4⟩
end Kaa
